import Mathlib

/-!
Shallow embedding of the MCP "HTTP Events and Network Lists" tool server.

The embedding models the five tool execute routines of `baseTools.ts`
(`createListHttpEventsTool`, `createListNetworkListTool`,
`createGetNetworkListTool`, `createUpdateNetworkListTool`,
`createCreateNetworkListTool`) over an explicit `World` carrying the
credential environment variables, the availability of the global fetch
primitive, the current clock reading, and the sequence of upstream HTTP
responses.  JSON values are modelled by the inductive `Json`; JSON numbers
are modelled as integers (every numeric field the tools handle is an id, a
count or a status-like quantity).  JavaScript dynamic behaviour that the
source relies on is modelled explicitly: truthiness (`jsTruthy`), property
access that throws a TypeError on `null` (`jsGet`), iterable spread
(`jsSpread`), `new Set` deduplication over parsed-JSON values
(`jsSetDedup`), and template-literal stringification (`jsDisplay`).
A thrown exception is modelled by the `.error` constructor of the
`Except String ToolResponse` outcome.  Zod schema validation is modelled
by per-schema parse functions returning `Except Diag`, where `Diag` is the
(finite, payload-independent) set of validator diagnostics, mirroring the
fact that zod issue messages name expected/received types but never embed
payload values.
-/

inductive Json where
  | null : Json
  | bool (b : Bool) : Json
  | num (n : Int) : Json
  | str (s : String) : Json
  | arr (elems : List Json) : Json
  | obj (fields : List (String × Json)) : Json

/-- JavaScript truthiness of a (parsed JSON) value. -/
def jsTruthy : Json → Bool
  | .null => false
  | .bool b => b
  | .num n => n != 0
  | .str s => s != ""
  | .arr _ => true
  | .obj _ => true

/-- Key lookup in a parsed JSON object.  `JSON.parse` keeps the last
occurrence of a duplicated key, so lookup returns the last binding. -/
def lookupLast (k : String) : List (String × Json) → Option Json
  | [] => none
  | (k', v) :: rest =>
    match lookupLast k rest with
    | some r => some r
    | none => if k' = k then some v else none

/-- JavaScript property access on a non-null value: a lookup on an object,
`undefined` (here `none`) on any other value.  (None of the accessed names
collide with built-in properties of primitives or arrays.) -/
def jsGetSafe : Json → String → Option Json
  | .obj fs, k => lookupLast k fs
  | _, _ => none

/-- JavaScript property access including the TypeError thrown on `null`. -/
def jsGet : Json → String → Except String (Option Json)
  | .null, k => .error ("TypeError: Cannot read properties of null (reading " ++ k ++ ")")
  | j, k => .ok (jsGetSafe j k)

/-- Array-literal spread `[...v]`: succeeds on arrays (the elements) and on
strings (the characters); throws a TypeError on any other JSON value. -/
def jsSpread : Json → Except String (List Json)
  | .arr xs => .ok xs
  | .str s => .ok (s.data.map fun c => Json.str (String.mk [c]))
  | _ => .error "TypeError: value is not iterable"

/-- SameValueZero comparison as used by `Set`, restricted to parsed-JSON
values: primitives compare by value; arrays and objects coming out of
`JSON.parse` are distinct references, so they never compare equal. -/
def jsPrimEq : Json → Json → Bool
  | .null, .null => true
  | .bool a, .bool b => a == b
  | .num a, .num b => a == b
  | .str a, .str b => a == b
  | _, _ => false

/-- `[...new Set(l)]`: keeps the first occurrence of each value, where
membership is SameValueZero (`jsPrimEq`).  `seen` accumulates the values
already emitted. -/
def jsSetDedupAux : List Json → List Json → List Json
  | [], _ => []
  | x :: xs, seen =>
    if seen.any (fun y => jsPrimEq y x) then jsSetDedupAux xs seen
    else x :: jsSetDedupAux xs (x :: seen)

def jsSetDedup (l : List Json) : List Json := jsSetDedupAux l []

mutual

/-- Template-literal stringification `${v}` (ECMAScript ToString) of a
parsed JSON value; arrays join their elements with commas, rendering null
elements as the empty string. -/
def jsDisplay : Json → String
  | .null => "null"
  | .bool b => cond b "true" "false"
  | .num n => toString n
  | .str s => s
  | .arr xs => jsDisplayList xs true
  | .obj _ => "[object Object]"

def jsDisplayList : List Json → Bool → String
  | [], _ => ""
  | x :: xs, first =>
    (if first then "" else ",") ++
      (match x with
        | .null => ""
        | y => jsDisplay y) ++
      jsDisplayList xs false

end

def indentStr (n : Nat) : String := String.mk (List.replicate n ' ')

/-- JSON string escaping as performed by `JSON.stringify` (common cases). -/
def escapeJsonChar (c : Char) : String :=
  if c = '"' then "\\\""
  else if c = '\\' then "\\\\"
  else if c = '\n' then "\\n"
  else if c = '\t' then "\\t"
  else if c = '\r' then "\\r"
  else String.mk [c]

def quoteJsonString (s : String) : String :=
  "\"" ++ String.join (s.data.map escapeJsonChar) ++ "\""

mutual

/-- `JSON.stringify(v, null, 2)` at nesting depth `d`. -/
def stringifyAt : Json → Nat → String
  | .null, _ => "null"
  | .bool b, _ => cond b "true" "false"
  | .num n, _ => toString n
  | .str s, _ => quoteJsonString s
  | .arr [], _ => "[]"
  | .arr (x :: xs), d =>
    "[\n" ++ indentStr (2 * (d + 1)) ++ stringifyAt x (d + 1) ++
      stringifyElems xs (d + 1) ++ "\n" ++ indentStr (2 * d) ++ "]"
  | .obj [], _ => "\x7b\x7d"
  | .obj ((k, v) :: fs), d =>
    "\x7b\n" ++ indentStr (2 * (d + 1)) ++ quoteJsonString k ++ ": " ++ stringifyAt v (d + 1) ++
      stringifyFields fs (d + 1) ++ "\n" ++ indentStr (2 * d) ++ "\x7d"

def stringifyElems : List Json → Nat → String
  | [], _ => ""
  | x :: xs, d => ",\n" ++ indentStr (2 * d) ++ stringifyAt x d ++ stringifyElems xs d

def stringifyFields : List (String × Json) → Nat → String
  | [], _ => ""
  | (k, v) :: fs, d =>
    ",\n" ++ indentStr (2 * d) ++ quoteJsonString k ++ ": " ++ stringifyAt v d ++ stringifyFields fs d

end

/-- `JSON.stringify(v, null, 2)`. -/
def stringifyPretty (j : Json) : String := stringifyAt j 0

def pad2 (n : Nat) : String := if n < 10 then "0" ++ toString n else toString n

def pad3 (n : Nat) : String :=
  if n < 10 then "00" ++ toString n else if n < 100 then "0" ++ toString n else toString n

def pad4 (n : Nat) : String :=
  if n < 10 then "000" ++ toString n
  else if n < 100 then "00" ++ toString n
  else if n < 1000 then "0" ++ toString n
  else toString n

/-- `Date.prototype.toISOString` on a millisecond epoch timestamp
(non-negative, i.e. instants from 1970 on), rendering
`YYYY-MM-DDTHH:MM:SS.sssZ` via the standard civil-from-days conversion. -/
def isoOfMs (ms : Nat) : String :=
  let msPart := ms % 1000
  let totalSecs := ms / 1000
  let ss := totalSecs % 60
  let totalMins := totalSecs / 60
  let mins := totalMins % 60
  let totalHours := totalMins / 60
  let hh := totalHours % 24
  let days := totalHours / 24
  let z := days + 719468
  let era := z / 146097
  let doe := z % 146097
  let yoe := (doe - doe / 1460 + doe / 36524 - doe / 146096) / 365
  let y := yoe + era * 400
  let doy := doe - (365 * yoe + yoe / 4 - yoe / 100)
  let mp := (5 * doy + 2) / 153
  let dom := doy - (153 * mp + 2) / 5 + 1
  let m := if mp < 10 then mp + 3 else mp - 9
  let yy := if m ≤ 2 then y + 1 else y
  pad4 yy ++ "-" ++ pad2 m ++ "-" ++ pad2 dom ++ "T" ++
    pad2 hh ++ ":" ++ pad2 mins ++ ":" ++ pad2 ss ++ "." ++ pad3 msPart ++ "Z"

/-- Validator diagnostics.  Mirrors the fact that zod issue messages name
expected/received types and required-field failures, and never embed
payload values: the diagnostic set is finite and payload-independent. -/
inductive Diag where
  | expectedObject : Diag
  | expectedArray : Diag
  | expectedString : Diag
  | expectedNumber : Diag
  | expectedBoolean : Diag
  | missingField : Diag
deriving DecidableEq

def diagText : Diag → String
  | .expectedObject => "expected object"
  | .expectedArray => "expected array"
  | .expectedString => "expected string"
  | .expectedNumber => "expected number"
  | .expectedBoolean => "expected boolean"
  | .missingField => "required field missing"

def asStr : Json → Except Diag String
  | .str s => .ok s
  | _ => .error .expectedString

def asNum : Json → Except Diag Int
  | .num n => .ok n
  | _ => .error .expectedNumber

def asBool : Json → Except Diag Bool
  | .bool b => .ok b
  | _ => .error .expectedBoolean

def asStrList : Json → Except Diag (List String)
  | .arr xs => xs.mapM asStr
  | _ => .error .expectedArray

/-- A required field of a zod object schema. -/
def reqField (fs : List (String × Json)) (k : String) : Except Diag Json :=
  match lookupLast k fs with
  | some v => .ok v
  | none => .error .missingField

/-- `z.object({id: z.number(), name: z.string(), type: z.string(),
last_editor: z.string(), last_modified: z.string(), active: z.boolean()})`
-- the per-entry schema of the list_network_lists results. -/
structure NetworkListSummary where
  id : Int
  name : String
  type : String
  last_editor : String
  last_modified : String
  active : Bool
deriving DecidableEq

def parseNetworkListSummary (j : Json) : Except Diag NetworkListSummary :=
  match j with
  | .obj fs => do
    let id ← asNum (← reqField fs "id")
    let name ← asStr (← reqField fs "name")
    let ty ← asStr (← reqField fs "type")
    let le ← asStr (← reqField fs "last_editor")
    let lm ← asStr (← reqField fs "last_modified")
    let act ← asBool (← reqField fs "active")
    .ok ⟨id, name, ty, le, lm, act⟩
  | _ => .error .expectedObject

/-- The zod-parsed value rendered back to JSON in schema key order (zod
strips unknown keys and emits the declared keys in shape order). -/
def NetworkListSummary.toJson (n : NetworkListSummary) : Json :=
  .obj [("id", .num n.id), ("name", .str n.name), ("type", .str n.type),
    ("last_editor", .str n.last_editor), ("last_modified", .str n.last_modified),
    ("active", .bool n.active)]

/-- The single-entity network-list schema (get/update/create `data`):
adds `items: z.array(z.string())`. -/
structure NetworkListData where
  id : Int
  name : String
  type : String
  items : List String
  last_editor : String
  last_modified : String
  active : Bool
deriving DecidableEq

def parseNetworkListData (j : Json) : Except Diag NetworkListData :=
  match j with
  | .obj fs => do
    let id ← asNum (← reqField fs "id")
    let name ← asStr (← reqField fs "name")
    let ty ← asStr (← reqField fs "type")
    let items ← asStrList (← reqField fs "items")
    let le ← asStr (← reqField fs "last_editor")
    let lm ← asStr (← reqField fs "last_modified")
    let act ← asBool (← reqField fs "active")
    .ok ⟨id, name, ty, items, le, lm, act⟩
  | _ => .error .expectedObject

def NetworkListData.toJson (n : NetworkListData) : Json :=
  .obj [("id", .num n.id), ("name", .str n.name), ("type", .str n.type),
    ("items", .arr (n.items.map Json.str)),
    ("last_editor", .str n.last_editor), ("last_modified", .str n.last_modified),
    ("active", .bool n.active)]

/-- `z.object({count: z.number(), results: z.array(NetworkListSchema)})`. -/
def parseListEnvelope (j : Json) : Except Diag (Int × List NetworkListSummary) :=
  match j with
  | .obj fs => do
    let count ← asNum (← reqField fs "count")
    let rj ← reqField fs "results"
    match rj with
    | .arr xs => do
      let results ← xs.mapM parseNetworkListSummary
      .ok (count, results)
    | _ => .error .expectedArray
  | _ => .error .expectedObject

/-- `z.object({data: NetworkListData})` -- the get-by-id envelope (no
`state` field, unlike create/update). -/
def parseGetByIdEnvelope (j : Json) : Except Diag NetworkListData :=
  match j with
  | .obj fs => do
    parseNetworkListData (← reqField fs "data")
  | _ => .error .expectedObject

/-- `z.object({state: z.string(), data: NetworkListData})` -- the
create/update response envelope. -/
def parseStateEnvelope (j : Json) : Except Diag (String × NetworkListData) :=
  match j with
  | .obj fs => do
    let st ← asStr (← reqField fs "state")
    let d ← parseNetworkListData (← reqField fs "data")
    .ok (st, d)
  | _ => .error .expectedObject

/-- The 25 optional nullable fields of `HttpEventSchema`, in schema order;
`true` marks a numeric field (`status`, `upstreamBytesSent`), `false` a
string field. -/
def eventFieldSpecs : List (String × Bool) :=
  [("configurationId", false), ("host", false), ("requestId", false),
   ("httpUserAgent", false), ("requestMethod", false), ("status", true),
   ("upstreamBytesSent", true), ("upstreamCacheStatus", false),
   ("sslProtocol", false), ("wafLearning", false), ("requestTime", false),
   ("serverProtocol", false), ("upstreamAddr", false), ("httpReferer", false),
   ("remoteAddress", false), ("wafMatch", false), ("wafScore", false),
   ("wafBlock", false), ("serverPort", false), ("sslCipher", false),
   ("serverAddr", false), ("scheme", false), ("geolocAsn", false),
   ("geolocRegionName", false), ("geolocCountryName", false)]

/-- `z.string().nullable().optional()` / `z.number().nullable().optional()`
on a present field value. -/
def checkEventField (isNum : Bool) (v : Json) : Except Diag Json :=
  match v, isNum with
  | .null, _ => .ok .null
  | .str s, false => .ok (.str s)
  | .num n, true => .ok (.num n)
  | _, false => .error .expectedString
  | _, true => .error .expectedNumber

/-- Validates the optional fields of one HttpEvent against `specs`,
returning the normalized (unknown-keys-stripped, shape-ordered) bindings;
absent optional fields are omitted from the parsed object. -/
def parseEventFields (fs : List (String × Json)) :
    List (String × Bool) → Except Diag (List (String × Json))
  | [] => .ok []
  | (k, isNum) :: rest =>
    match lookupLast k fs with
    | none => parseEventFields fs rest
    | some v => do
      let nv ← checkEventField isNum v
      let tl ← parseEventFields fs rest
      .ok ((k, nv) :: tl)

/-- `HttpEventSchema`: `ts: z.string()` required, then the 25 optional
nullable fields.  Returns the normalized event object. -/
def parseHttpEvent (j : Json) : Except Diag Json :=
  match j with
  | .obj fs =>
    match lookupLast "ts" fs with
    | some (.str ts) => do
      let tl ← parseEventFields fs eventFieldSpecs
      .ok (.obj (("ts", .str ts) :: tl))
    | some _ => .error .expectedString
    | none => .error .missingField
  | _ => .error .expectedObject

/-- `z.object({data: z.object({httpEvents: z.array(HttpEventSchema)})})`. -/
def parseEventsEnvelope (j : Json) : Except Diag (List Json) :=
  match j with
  | .obj fs =>
    match lookupLast "data" fs with
    | none => .error .missingField
    | some (.obj dfs) =>
      match lookupLast "httpEvents" dfs with
      | none => .error .missingField
      | some (.arr xs) => xs.mapM parseHttpEvent
      | some _ => .error .expectedArray
    | some _ => .error .expectedObject
  | _ => .error .expectedObject

/-- An upstream HTTP response as observed through the fetch API: status,
status text, and the result of `res.json()` (`none` when the body fails to
parse as JSON, i.e. the `.catch` branch fires). -/
structure HttpResponse where
  status : Nat
  statusText : String
  jsonBody : Option Json

/-- `res.ok`: status in the inclusive range 200-299. -/
def HttpResponse.isOk (r : HttpResponse) : Bool :=
  decide (200 ≤ r.status ∧ r.status ≤ 299)

/-- One outbound request issued through fetch.  The body is kept
structured; the source serializes it with `JSON.stringify`, which is
lossless on these plain objects. -/
structure Request where
  url : String
  method : String
  headers : List (String × String)
  body : Option Json

/-- `{content: [{type: 'text', text}]}` elements. -/
structure TextContent where
  type : String
  text : String
deriving DecidableEq

structure ToolResponse where
  content : List TextContent
deriving DecidableEq

/-- Result of one execute invocation: the returned `ToolResponse`, or
`.error` when a JavaScript exception propagates out of the routine; plus
the trace of fetch calls issued, in order. -/
structure ExecResult where
  outcome : Except String ToolResponse
  requests : List Request

/-- The environment and upstream world a tool invocation runs against.
`responses n` is the response to the n-th fetch call the invocation
issues. -/
structure World where
  azionApiToken : Option String
  azionToken : Option String
  fetchAvailable : Bool
  nowMs : Nat
  responses : Nat → HttpResponse

/-- JavaScript `||` truthiness filter on an environment variable value:
an unset variable or an empty string is falsy. -/
def envString : Option String → Option String
  | some s => if s = "" then none else some s
  | none => none

/-- `process.env.AZION_API_TOKEN || process.env.AZION_TOKEN`, as observed
by the subsequent `if (!token)` guard: the token used, if any. -/
def resolveToken (w : World) : Option String :=
  match envString w.azionApiToken with
  | some t => some t
  | none => envString w.azionToken

def textReply (s : String) : ToolResponse := ⟨[⟨"text", s⟩]⟩

def missingTokenText : String :=
  "Missing AZION_API_TOKEN (or AZION_TOKEN) in environment. Please create a .env with AZION_API_TOKEN=your_token and ensure your runner loads it."

def fetchUnavailableText : String :=
  "Fetch API is not available in this runtime. Please run on Node 18+ or provide a fetch polyfill."

def schemaMismatchPrefixText : String := "Unexpected response format from Azion API: "

/-- First content text of a returned response, or `""` when the routine
threw or returned no content. -/
def firstText (r : ExecResult) : String :=
  match r.outcome with
  | .ok resp =>
    match resp.content with
    | c :: _ => c.text
    | [] => ""
  | .error _ => ""

def eventsGraphqlUrl : String := "https://api-origin.azionapi.net/events/graphql"

def networkListsBaseUrl : String := "https://edge-api.azion.net/workspace/api/network_lists"

/-- The fixed GraphQL query text of query_http_events (verbatim from the
source template literal; tabs and spaces as in the source). -/
def httpEventsQuery : String :=
  "\nquery httpEvents($tsRange_begin: DateTime!, $tsRange_end: DateTime!) \x7b\n" ++
  "\thttpEvents (\n\t\tlimit: 1000\n\t\torderBy: [ts_DESC]\n\t\tfilter: \x7b\n" ++
  "\t\t\ttsRange: \x7b begin: $tsRange_begin, end: $tsRange_end \x7d\n\t\t\x7d\n\t) \x7b\n" ++
  "    ts\n\t\tconfigurationId\n\t\thost\n\t\trequestId\n\t\thttpUserAgent\n" ++
  "\t\trequestMethod\n\t\tstatus\n\t\tupstreamBytesSent\n    upstreamCacheStatus\n" ++
  "\t\tsslProtocol\n\t\twafLearning\n\t\trequestTime\n\t\tserverProtocol\n" ++
  "    upstreamAddr\n\t\thttpReferer\n\t\tremoteAddress\n\t\twafMatch\n" ++
  "    wafScore\n    wafBlock\n\t\tserverPort\n\t\tsslCipher\n\t\tserverAddr\n" ++
  "\t\tscheme\n    geolocAsn\n    geolocRegionName\n    geolocCountryName\n\t\x7d\n\x7d\n"

/-- The GraphQL failure message selection:
`(json && json.errors && Array.isArray(json.errors) && json.errors[0]?.message)
  ? json.errors[0].message : "HTTP <status> <statusText>"`.
Every step short-circuits on falsiness, so no TypeError can occur here. -/
def graphqlFailMessage (json : Json) (status : Nat) (statusText : String) : String :=
  let fallback := "HTTP " ++ toString status ++ " " ++ statusText
  if jsTruthy json then
    match jsGetSafe json "errors" with
    | some errs =>
      if jsTruthy errs then
        match errs with
        | .arr l =>
          match l.head? with
          | some e0 =>
            let m := match e0 with
              | .null => none
              | v => jsGetSafe v "message"
            match m with
            | some mv => if jsTruthy mv then jsDisplay mv else fallback
            | none => fallback
          | none => fallback
        | _ => fallback
      else fallback
    | none => fallback
  else fallback

/-- The REST failure message selection
`json.message || "HTTP <status> <statusText>"`; reading `.message` throws
a TypeError when the parsed body is `null`. -/
def restFailMessage (json : Json) (status : Nat) (statusText : String) : Except String String :=
  match json with
  | .null => .error "TypeError: Cannot read properties of null (reading message)"
  | j =>
    .ok (match jsGetSafe j "message" with
      | some v =>
        if jsTruthy v then jsDisplay v else "HTTP " ++ toString status ++ " " ++ statusText
      | none => "HTTP " ++ toString status ++ " " ++ statusText)

/-- Execute routine of query_http_events (`createListHttpEventsTool`). -/
def listHttpEventsExecute (beginArg endArg : Option String) (w : World) : ExecResult :=
  let defaultEnd := isoOfMs w.nowMs
  let defaultBegin := isoOfMs (w.nowMs - 5 * 60 * 1000)
  let beginTs := beginArg.getD defaultBegin
  let endTs := endArg.getD defaultEnd
  match resolveToken w with
  | none => ⟨.ok (textReply missingTokenText), []⟩
  | some token =>
    if w.fetchAvailable then
      let req : Request :=
        ⟨eventsGraphqlUrl, "POST",
          [("content-type", "application/json"), ("authorization", "Token " ++ token)],
          some (.obj [("query", .str httpEventsQuery),
            ("variables", .obj [("tsRange_begin", .str beginTs), ("tsRange_end", .str endTs)])])⟩
      let res := w.responses 0
      let json := res.jsonBody.getD
        (.obj [("errors", .arr [.obj [("message", .str "Invalid JSON response from Azion API")]])])
      if res.isOk then
        match parseEventsEnvelope json with
        | .error d =>
          ⟨.ok (textReply (schemaMismatchPrefixText ++ diagText d)), [req]⟩
        | .ok events =>
          let header := "HTTP Events from " ++ beginTs ++ " to " ++ endTs
          ⟨.ok (textReply (header ++ "\n\nRaw data:\n" ++ stringifyPretty (.arr events))), [req]⟩
      else
        ⟨.ok (textReply ("Azion GraphQL request failed: " ++
          graphqlFailMessage json res.status res.statusText)), [req]⟩
    else ⟨.ok (textReply fetchUnavailableText), []⟩

/-- Execute routine of list_network_lists (`createListNetworkListTool`). -/
def listNetworkListExecute (w : World) : ExecResult :=
  match resolveToken w with
  | none => ⟨.ok (textReply missingTokenText), []⟩
  | some token =>
    if w.fetchAvailable then
      let req : Request :=
        ⟨networkListsBaseUrl ++ "?type=ip_cidr", "GET",
          [("Accept", "application/json"), ("Authorization", "Token " ++ token)], none⟩
      let res := w.responses 0
      let json := res.jsonBody.getD
        (.obj [("message", .str ("Invalid JSON response from Azion API \x7bstatus: " ++
          toString res.status ++ "\x7d"))])
      if res.isOk then
        match parseListEnvelope json with
        | .error d =>
          ⟨.ok (textReply (schemaMismatchPrefixText ++ diagText d)), [req]⟩
        | .ok (count, results) =>
          ⟨.ok (textReply ("Found " ++ toString count ++ " network lists.\n\n" ++
            stringifyPretty (.arr (results.map NetworkListSummary.toJson)))), [req]⟩
      else
        match restFailMessage json res.status res.statusText with
        | .error e => ⟨.error e, [req]⟩
        | .ok msg => ⟨.ok (textReply ("Azion API request failed: " ++ msg)), [req]⟩
    else ⟨.ok (textReply fetchUnavailableText), []⟩

/-- Execute routine of get_network_list (`createGetNetworkListTool`). -/
def getNetworkListExecute (networkListId : Int) (checkIp : Option String) (w : World) : ExecResult :=
  match resolveToken w with
  | none => ⟨.ok (textReply missingTokenText), []⟩
  | some token =>
    if w.fetchAvailable then
      let req : Request :=
        ⟨networkListsBaseUrl ++ "/" ++ toString networkListId, "GET",
          [("Accept", "application/json"), ("Authorization", "Token " ++ token)], none⟩
      let res := w.responses 0
      let json := res.jsonBody.getD (.obj [("message", .str "Invalid JSON response from Azion API")])
      if res.isOk then
        match parseGetByIdEnvelope json with
        | .error d =>
          ⟨.ok (textReply (schemaMismatchPrefixText ++ diagText d)), [req]⟩
        | .ok nl =>
          let ipCheckResult :=
            match checkIp with
            | some ip =>
              if ip ≠ "" then
                "\n\nIP Check: " ++ ip ++ " " ++
                  (if nl.items.contains ip then "is already present" else "is NOT present") ++
                  " in the network list."
              else ""
            | none => ""
          ⟨.ok (textReply ("Network List Details (ID: " ++ toString nl.id ++ "):\n\n" ++
            stringifyPretty nl.toJson ++ ipCheckResult)), [req]⟩
      else
        match restFailMessage json res.status res.statusText with
        | .error e => ⟨.error e, [req]⟩
        | .ok msg => ⟨.ok (textReply ("Azion API request failed: " ++ msg)), [req]⟩
    else ⟨.ok (textReply fetchUnavailableText), []⟩

/-- The merge step of update_network_list (`let finalItems = args.newItems`
followed by the `if (!args.replaceAll)` block): returns the final items (as
JavaScript values) or a thrown exception, together with the fetch calls
issued by this step. -/
def mergePhase (url token : String) (newItems : List String) (replaceAll : Option Bool)
    (w : World) : Except String (List Json) × List Request :=
  if replaceAll.getD false then (.ok (newItems.map Json.str), [])
  else
    let getReq : Request :=
      ⟨url, "GET", [("Accept", "application/json"), ("Authorization", "Token " ++ token)], none⟩
    let getRes := w.responses 0
    if getRes.isOk then
      let currentData := getRes.jsonBody.getD (.obj [])
      match jsGet currentData "data" with
      | .error e => (.error e, [getReq])
      | .ok none => (.ok (newItems.map Json.str), [getReq])
      | .ok (some dv) =>
        if jsTruthy dv then
          match jsGet dv "items" with
          | .error e => (.error e, [getReq])
          | .ok none => (.ok (newItems.map Json.str), [getReq])
          | .ok (some iv) =>
            if jsTruthy iv then
              match jsSpread iv with
              | .ok existingItems =>
                (.ok (jsSetDedup (existingItems ++ newItems.map Json.str)), [getReq])
              | .error e => (.error e, [getReq])
            else (.ok (newItems.map Json.str), [getReq])
        else (.ok (newItems.map Json.str), [getReq])
    else (.ok (newItems.map Json.str), [getReq])

/-- The PATCH step of update_network_list: sends `{items: finalItems}` and
renders the response. -/
def patchPhase (url token : String) (finalItems : List Json) (prevReqs : List Request)
    (w : World) : ExecResult :=
  let patchReq : Request :=
    ⟨url, "PATCH",
      [("Accept", "application/json"), ("Content-Type", "application/json"),
        ("Authorization", "Token " ++ token)],
      some (.obj [("items", .arr finalItems)])⟩
  let res := w.responses prevReqs.length
  let json := res.jsonBody.getD (.obj [("message", .str "Invalid JSON response from Azion API")])
  ⟨if res.isOk then
      match parseStateEnvelope json with
      | .error d => .ok (textReply (schemaMismatchPrefixText ++ diagText d))
      | .ok (state, data) =>
        .ok (textReply ("Successfully updated network list (State: " ++ state ++ ").\n\n" ++
          stringifyPretty data.toJson))
    else
      match restFailMessage json res.status res.statusText with
      | .error e => .error e
      | .ok msg => .ok (textReply ("Azion API request failed: " ++ msg)),
    prevReqs ++ [patchReq]⟩

/-- Execute routine of update_network_list (`createUpdateNetworkListTool`). -/
def updateNetworkListExecute (networkListId : Int) (newItems : List String)
    (replaceAll : Option Bool) (w : World) : ExecResult :=
  match resolveToken w with
  | none => ⟨.ok (textReply missingTokenText), []⟩
  | some token =>
    if w.fetchAvailable then
      let url := networkListsBaseUrl ++ "/" ++ toString networkListId
      match mergePhase url token newItems replaceAll w with
      | (.ok finalItems, reqs) => patchPhase url token finalItems reqs w
      | (.error e, reqs) => ⟨.error e, reqs⟩
    else ⟨.ok (textReply fetchUnavailableText), []⟩

/-- Execute routine of create_network_list (`createCreateNetworkListTool`). -/
def createNetworkListExecute (name nlType : String) (items : List String)
    (active : Option Bool) (w : World) : ExecResult :=
  match resolveToken w with
  | none => ⟨.ok (textReply missingTokenText), []⟩
  | some token =>
    if w.fetchAvailable then
      let body : Json :=
        .obj [("name", .str name), ("type", .str nlType),
          ("items", .arr (items.map Json.str)), ("active", .bool (active.getD true))]
      let req : Request :=
        ⟨networkListsBaseUrl, "POST",
          [("Accept", "application/json"), ("Content-Type", "application/json"),
            ("Authorization", "Token " ++ token)], some body⟩
      let res := w.responses 0
      let json := res.jsonBody.getD (.obj [("message", .str "Invalid JSON response from Azion API")])
      if res.isOk then
        match parseStateEnvelope json with
        | .error d =>
          ⟨.ok (textReply (schemaMismatchPrefixText ++ diagText d)), [req]⟩
        | .ok (_, data) =>
          ⟨.ok (textReply ("Successfully created network list.\n\n" ++
            stringifyPretty data.toJson)), [req]⟩
      else
        match restFailMessage json res.status res.statusText with
        | .error e => ⟨.error e, [req]⟩
        | .ok msg => ⟨.ok (textReply ("Azion API request failed: " ++ msg)), [req]⟩
    else ⟨.ok (textReply fetchUnavailableText), []⟩

/-- An invocation of one of the five registered tools with validated
arguments (argument validation against the declared `inputSchema` happens
in the MCP server before `execute` runs). -/
inductive ToolCall where
  | queryHttpEvents (beginArg endArg : Option String) : ToolCall
  | listNetworkLists : ToolCall
  | createNetworkList (name nlType : String) (items : List String) (active : Option Bool) : ToolCall
  | getNetworkList (networkListId : Int) (checkIp : Option String) : ToolCall
  | updateNetworkList (networkListId : Int) (newItems : List String) (replaceAll : Option Bool) : ToolCall

/-- Registry dispatch: runs the named tool's execute routine. -/
def runTool : ToolCall → World → ExecResult
  | .queryHttpEvents b e, w => listHttpEventsExecute b e w
  | .listNetworkLists, w => listNetworkListExecute w
  | .createNetworkList n t i a, w => createNetworkListExecute n t i a w
  | .getNetworkList i ip, w => getNetworkListExecute i ip w
  | .updateNetworkList i ni ra, w => updateNetworkListExecute i ni ra w

/-- The registered tool name of each call, as listed in the registry. -/
def toolName : ToolCall → String
  | .queryHttpEvents _ _ => "query_http_events"
  | .listNetworkLists => "list_network_lists"
  | .createNetworkList _ _ _ _ => "create_network_list"
  | .getNetworkList _ _ => "get_network_list"
  | .updateNetworkList _ _ _ => "update_network_list"

/-- The registry order of `tools` in the source. -/
def registeredToolNames : List String :=
  ["query_http_events", "list_network_lists", "create_network_list",
   "get_network_list", "update_network_list"]

/-- `sub` occurs as a contiguous substring of `s` (byte-for-byte, via the
character list). -/
def strContains (s sub : String) : Prop := sub.data <:+: s.data

instance (s sub : String) : Decidable (strContains s sub) := by
  unfold strContains; infer_instance

/-- First-occurrence-keeping deduplication of a string list, as the spec
describes the merge result: "the deduplicated union ... keeping the first
occurrence of each string".  `seen` accumulates the strings already
emitted. -/
def dedupKeepFirstAux : List String → List String → List String
  | [], _ => []
  | x :: xs, seen =>
    if seen.any (fun y => y == x) then dedupKeepFirstAux xs seen
    else x :: dedupKeepFirstAux xs (x :: seen)

def dedupKeepFirst (l : List String) : List String := dedupKeepFirstAux l []

def okJsonResp (b : Json) : HttpResponse := ⟨200, "OK", some b⟩

/-- A world with a valid token, fetch available, and a fixed clock. -/
def wTok (resp : Nat → HttpResponse) : World := ⟨some "tok", none, true, 1700000000000, resp⟩

def nlDataJson (items : List String) : Json :=
  .obj [("id", .num 48334), ("name", .str "mylist"), ("type", .str "ip_cidr"),
    ("items", .arr (items.map Json.str)), ("last_editor", .str "ed"),
    ("last_modified", .str "lm"), ("active", .bool true)]

def stateRespBody : Json := .obj [("state", .str "executed"), ("data", nlDataJson ["A", "B", "C"])]

def bodyMergeAB : Json := .obj [("data", .obj [("items", .arr [.str "A", .str "B"])])]

def wMergeAB : World :=
  wTok (fun n => if n = 0 then okJsonResp bodyMergeAB else okJsonResp stateRespBody)

def wGetFail : World :=
  wTok (fun n => if n = 0 then ⟨500, "Internal Server Error", some (.obj [])⟩
    else okJsonResp stateRespBody)

def bodyUnvalidated : Json := .obj [("data", .obj [("items", .arr [.str "a"])])]

def wUnvalidated : World :=
  wTok (fun n => if n = 0 then okJsonResp bodyUnvalidated else okJsonResp stateRespBody)

def wAny : World := wTok (fun _ => okJsonResp stateRespBody)

def wNoTokens : World := ⟨none, none, true, 1700000000000, fun _ => okJsonResp (.obj [])⟩

def bodyGetById : Json := .obj [("data", nlDataJson ["10.0.0.0/8"])]

def wGetById : World := wTok (fun _ => okJsonResp bodyGetById)

def bodyResultsObj : Json := .obj [("count", .num 1), ("results", .obj [])]

def wResultsObj : World := wTok (fun _ => okJsonResp bodyResultsObj)

def bodyEventsEmpty : Json := .obj [("data", .obj [("httpEvents", .arr [])])]

def wEventsEmpty : World := wTok (fun _ => okJsonResp bodyEventsEmpty)

def wNullErrBody : World := wTok (fun _ => ⟨500, "Internal Server Error", some .null⟩)

theorem strContains_of_append (pre sub post : String) :
    strContains (pre ++ sub ++ post) sub :=
  ⟨pre.data, post.data, by simp [String.data_append]⟩

theorem strContains_trans {s t u : String} (h1 : strContains s t) (h2 : strContains t u) :
    strContains s u :=
  h2.trans h1

theorem mem_of_strContains {s t : String} {c : Char} (h : strContains s t) (hc : c ∈ t.data) :
    c ∈ s.data :=
  h.subset hc

/-- On lists of strings, the JavaScript `Set` dedup agrees with the
spec-side first-occurrence dedup. -/
theorem jsSetDedupAux_map_str (l : List String) :
    ∀ seen : List String,
      jsSetDedupAux (l.map Json.str) (seen.map Json.str) =
        (dedupKeepFirstAux l seen).map Json.str := by
  induction l with
  | nil => intro seen; simp [jsSetDedupAux, dedupKeepFirstAux]
  | cons x xs ih =>
    intro seen
    have hany : ∀ sn : List String, (sn.map Json.str).any (fun y => jsPrimEq y (Json.str x)) =
        sn.any (fun y => y == x) := by
      intro sn
      induction sn with
      | nil => rfl
      | cons s ss ihs => rw [List.map_cons, List.any_cons, List.any_cons, ihs]; rfl
    by_cases h : seen.any (fun y => y == x) = true
    · simp [jsSetDedupAux, dedupKeepFirstAux, hany seen, h, ih seen]
    · have h' : seen.any (fun y => y == x) = false := by
        cases hh : seen.any (fun y => y == x)
        · rfl
        · exact absurd hh h
      have := ih (x :: seen)
      simp only [List.map_cons] at this
      simp [jsSetDedupAux, dedupKeepFirstAux, hany seen, h', this]

theorem jsSetDedup_map_str (l : List String) :
    jsSetDedup (l.map Json.str) = (dedupKeepFirst l).map Json.str := by
  have := jsSetDedupAux_map_str l []
  simpa [jsSetDedup, dedupKeepFirst] using this

theorem mem_dedupKeepFirstAux {a : String} :
    ∀ l seen : List String, a ∈ dedupKeepFirstAux l seen → a ∉ seen := by
  intro l
  induction l with
  | nil => intro seen h; simp [dedupKeepFirstAux] at h
  | cons x xs ih =>
    intro seen h
    by_cases hx : seen.any (fun y => y == x) = true
    · rw [dedupKeepFirstAux, if_pos hx] at h
      exact ih seen h
    · rw [dedupKeepFirstAux, if_neg hx] at h
      rcases List.mem_cons.mp h with heq | hmem
      · subst heq
        intro hmemSeen
        exact hx (List.any_eq_true.mpr ⟨a, hmemSeen, by simp⟩)
      · have := ih (x :: seen) hmem
        intro hseen
        exact this (List.mem_cons_of_mem x hseen)

theorem dedupKeepFirstAux_nodup : ∀ (l seen : List String), (dedupKeepFirstAux l seen).Nodup := by
  intro l
  induction l with
  | nil => intro seen; simp [dedupKeepFirstAux]
  | cons x xs ih =>
    intro seen
    by_cases hx : seen.any (fun y => y == x) = true
    · rw [dedupKeepFirstAux, if_pos hx]; exact ih seen
    · rw [dedupKeepFirstAux, if_neg hx]
      refine List.nodup_cons.mpr ⟨?_, ih (x :: seen)⟩
      intro hmem
      exact mem_dedupKeepFirstAux xs (x :: seen) hmem (List.mem_cons_self x seen)

theorem dedupKeepFirst_nodup (l : List String) : (dedupKeepFirst l).Nodup :=
  dedupKeepFirstAux_nodup l []

/-- A value with a defined property is an object, hence truthy. -/
theorem jsTruthy_of_jsGet_some {j v : Json} {k : String} (h : jsGet j k = .ok (some v)) :
    jsTruthy j = true := by
  cases j <;> simp_all [jsGet, jsGetSafe, jsTruthy]

/-- The PATCH step always issues exactly the PATCH request after the
requests of the merge step. -/
theorem patchPhase_requests (url token : String) (finalItems : List Json)
    (prevReqs : List Request) (w : World) :
    (patchPhase url token finalItems prevReqs w).requests =
      prevReqs ++ [⟨url, "PATCH",
        [("Accept", "application/json"), ("Content-Type", "application/json"),
          ("Authorization", "Token " ++ token)],
        some (.obj [("items", .arr finalItems)])⟩] := by
  rfl

/-- Characterization of the merge path of update_network_list when the
preliminary GET succeeds and its body carries truthy `data` and
`data.items` values: the raw (unvalidated) items value is spread and
Set-deduplicated with the new items, and the execution continues with the
PATCH step.  No schema validation is involved in this step. -/
theorem updateExecute_merge_spread (w : World) (nid : Int) (ni : List String)
    (ra : Option Bool) (token : String) (body dv iv : Json) (ex : List Json)
    (htok : resolveToken w = some token) (hfetch : w.fetchAvailable = true)
    (hra : ra.getD false = false)
    (hok : (w.responses 0).isOk = true) (hbody : (w.responses 0).jsonBody = some body)
    (hdv : jsGet body "data" = .ok (some dv)) (hdvT : jsTruthy dv = true)
    (hiv : jsGet dv "items" = .ok (some iv)) (hivT : jsTruthy iv = true)
    (hspread : jsSpread iv = .ok ex) :
    runTool (.updateNetworkList nid ni ra) w =
      patchPhase (networkListsBaseUrl ++ "/" ++ toString nid) token
        (jsSetDedup (ex ++ ni.map Json.str))
        [⟨networkListsBaseUrl ++ "/" ++ toString nid, "GET",
          [("Accept", "application/json"), ("Authorization", "Token " ++ token)], none⟩] w := by
  simp only [runTool]
  unfold updateNetworkListExecute
  rw [htok]
  simp only [hfetch, if_true]
  unfold mergePhase
  simp only [hra, Bool.false_eq_true, if_false, hok, if_true, hbody, Option.getD_some,
    hdv, hdvT, hiv, hivT, hspread]

/-- The pretty rendering of any JSON object contains an opening brace. -/
theorem brace_mem_stringify_obj (fs : List (String × Json)) :
    '\x7b' ∈ (stringifyPretty (Json.obj fs)).data := by
  cases fs with
  | nil => decide
  | cons f fl =>
    obtain ⟨k, v⟩ := f
    simp only [stringifyPretty, stringifyAt, String.data_append, List.mem_append]
    exact Or.inl (Or.inl (Or.inl (Or.inl (Or.inl (Or.inl (Or.inl (Or.inl (by decide))))))))

/-- Schema-mismatch replies contain no brace character, for any
diagnostic. -/
theorem brace_not_mem_schema_reply (d : Diag) :
    '\x7b' ∉ (schemaMismatchPrefixText ++ diagText d).data := by
  cases d <;> decide

/-- Hence a schema-mismatch reply never contains the rendering of any JSON
object (in particular, never the malformed payload or any object inside
it). -/
theorem schema_reply_no_obj (d : Diag) (fs : List (String × Json)) :
    ¬ strContains (schemaMismatchPrefixText ++ diagText d) (stringifyPretty (Json.obj fs)) := by
  intro h
  exact brace_not_mem_schema_reply d (mem_of_strContains h (brace_mem_stringify_obj fs))

theorem patchPhase_ok {url token : String} {fi : List Json} {reqs : List Request} {w : World}
    {r : ToolResponse} (h : (patchPhase url token fi reqs w).outcome = .ok r) :
    ∃ t, r = textReply t := by
  unfold patchPhase at h
  simp only at h
  split at h
  · split at h <;> exact ⟨_, (Except.ok.inj h).symm⟩
  · split at h
    · exact absurd h (by simp)
    · exact ⟨_, (Except.ok.inj h).symm⟩

theorem listHttpEventsExecute_ok {b e : Option String} {w : World} {r : ToolResponse}
    (h : (listHttpEventsExecute b e w).outcome = .ok r) : ∃ t, r = textReply t := by
  unfold listHttpEventsExecute at h
  split at h
  · exact ⟨_, (Except.ok.inj h).symm⟩
  · split at h
    · simp only at h
      split at h
      · split at h <;> exact ⟨_, (Except.ok.inj h).symm⟩
      · exact ⟨_, (Except.ok.inj h).symm⟩
    · exact ⟨_, (Except.ok.inj h).symm⟩

theorem listNetworkListExecute_ok {w : World} {r : ToolResponse}
    (h : (listNetworkListExecute w).outcome = .ok r) : ∃ t, r = textReply t := by
  unfold listNetworkListExecute at h
  split at h
  · exact ⟨_, (Except.ok.inj h).symm⟩
  · split at h
    · simp only at h
      split at h
      · split at h <;> exact ⟨_, (Except.ok.inj h).symm⟩
      · split at h
        · exact Except.noConfusion h
        · exact ⟨_, (Except.ok.inj h).symm⟩
    · exact ⟨_, (Except.ok.inj h).symm⟩

theorem getNetworkListExecute_ok {nid : Int} {ip : Option String} {w : World} {r : ToolResponse}
    (h : (getNetworkListExecute nid ip w).outcome = .ok r) : ∃ t, r = textReply t := by
  unfold getNetworkListExecute at h
  split at h
  · exact ⟨_, (Except.ok.inj h).symm⟩
  · split at h
    · simp only at h
      split at h
      · split at h <;> exact ⟨_, (Except.ok.inj h).symm⟩
      · split at h
        · exact Except.noConfusion h
        · exact ⟨_, (Except.ok.inj h).symm⟩
    · exact ⟨_, (Except.ok.inj h).symm⟩

theorem createNetworkListExecute_ok {n t : String} {items : List String} {act : Option Bool}
    {w : World} {r : ToolResponse}
    (h : (createNetworkListExecute n t items act w).outcome = .ok r) : ∃ s, r = textReply s := by
  unfold createNetworkListExecute at h
  split at h
  · exact ⟨_, (Except.ok.inj h).symm⟩
  · split at h
    · simp only at h
      split at h
      · split at h <;> exact ⟨_, (Except.ok.inj h).symm⟩
      · split at h
        · exact Except.noConfusion h
        · exact ⟨_, (Except.ok.inj h).symm⟩
    · exact ⟨_, (Except.ok.inj h).symm⟩

theorem updateNetworkListExecute_ok {nid : Int} {ni : List String} {ra : Option Bool}
    {w : World} {r : ToolResponse}
    (h : (updateNetworkListExecute nid ni ra w).outcome = .ok r) : ∃ t, r = textReply t := by
  unfold updateNetworkListExecute at h
  split at h
  · exact ⟨_, (Except.ok.inj h).symm⟩
  · split at h
    · simp only at h
      split at h
      · exact patchPhase_ok h
      · exact Except.noConfusion h
    · exact ⟨_, (Except.ok.inj h).symm⟩

/-- A substring of the left part is a substring of the concatenation. -/
theorem strContains_append_left (a b sub : String) (h : strContains a sub) :
    strContains (a ++ b) sub := by
  unfold strContains at *
  rw [String.data_append]
  exact h.trans (List.prefix_append a.data b.data).isInfix

/-- Every schema-mismatch reply contains the fixed literal. -/
theorem strContains_schema_prefix (d : Diag) :
    strContains (schemaMismatchPrefixText ++ diagText d)
      "Unexpected response format from Azion API" :=
  strContains_append_left schemaMismatchPrefixText (diagText d) _ (by decide)

/-- Merge path when the preliminary GET fails (non-2xx): silent fallback
to `newItems` verbatim, then the PATCH step. -/
theorem updateExecute_getFail (w : World) (nid : Int) (ni : List String)
    (ra : Option Bool) (token : String)
    (htok : resolveToken w = some token) (hfetch : w.fetchAvailable = true)
    (hra : ra.getD false = false) (hok : (w.responses 0).isOk = false) :
    runTool (.updateNetworkList nid ni ra) w =
      patchPhase (networkListsBaseUrl ++ "/" ++ toString nid) token (ni.map Json.str)
        [⟨networkListsBaseUrl ++ "/" ++ toString nid, "GET",
          [("Accept", "application/json"), ("Authorization", "Token " ++ token)], none⟩] w := by
  simp only [runTool]
  unfold updateNetworkListExecute
  rw [htok]
  simp only [hfetch, if_true]
  unfold mergePhase
  simp only [hra, Bool.false_eq_true, if_false, hok]

/-- Schema-mismatch reply of query_http_events. -/
theorem listHttpEventsExecute_mismatch (w : World) (b e : Option String) (token : String)
    (body : Json) (d : Diag)
    (htok : resolveToken w = some token) (hfetch : w.fetchAvailable = true)
    (hok : (w.responses 0).isOk = true) (hbody : (w.responses 0).jsonBody = some body)
    (hparse : parseEventsEnvelope body = .error d) :
    (listHttpEventsExecute b e w).outcome =
      .ok (textReply (schemaMismatchPrefixText ++ diagText d)) := by
  unfold listHttpEventsExecute
  rw [htok]
  simp only [hfetch, if_true, hok, hbody, Option.getD_some, hparse]

/-- Schema-mismatch reply of list_network_lists. -/
theorem listNetworkListExecute_mismatch (w : World) (token : String) (body : Json) (d : Diag)
    (htok : resolveToken w = some token) (hfetch : w.fetchAvailable = true)
    (hok : (w.responses 0).isOk = true) (hbody : (w.responses 0).jsonBody = some body)
    (hparse : parseListEnvelope body = .error d) :
    (listNetworkListExecute w).outcome =
      .ok (textReply (schemaMismatchPrefixText ++ diagText d)) := by
  unfold listNetworkListExecute
  rw [htok]
  simp only [hfetch, if_true, hok, hbody, Option.getD_some, hparse]

/-- Schema-mismatch reply of get_network_list. -/
theorem getNetworkListExecute_mismatch (w : World) (nid : Int) (ip : Option String)
    (token : String) (body : Json) (d : Diag)
    (htok : resolveToken w = some token) (hfetch : w.fetchAvailable = true)
    (hok : (w.responses 0).isOk = true) (hbody : (w.responses 0).jsonBody = some body)
    (hparse : parseGetByIdEnvelope body = .error d) :
    (getNetworkListExecute nid ip w).outcome =
      .ok (textReply (schemaMismatchPrefixText ++ diagText d)) := by
  unfold getNetworkListExecute
  rw [htok]
  simp only [hfetch, if_true, hok, hbody, Option.getD_some, hparse]

/-- Schema-mismatch reply of create_network_list. -/
theorem createNetworkListExecute_mismatch (w : World) (n ty : String) (items : List String)
    (act : Option Bool) (token : String) (body : Json) (d : Diag)
    (htok : resolveToken w = some token) (hfetch : w.fetchAvailable = true)
    (hok : (w.responses 0).isOk = true) (hbody : (w.responses 0).jsonBody = some body)
    (hparse : parseStateEnvelope body = .error d) :
    (createNetworkListExecute n ty items act w).outcome =
      .ok (textReply (schemaMismatchPrefixText ++ diagText d)) := by
  unfold createNetworkListExecute
  rw [htok]
  simp only [hfetch, if_true, hok, hbody, Option.getD_some, hparse]

/-- Schema-mismatch reply of update_network_list's PATCH response, for any
completed merge step. -/
theorem updateNetworkListExecute_mismatch (w : World) (nid : Int) (ni : List String)
    (ra : Option Bool) (token : String) (fi : List Json) (reqs : List Request)
    (body : Json) (d : Diag)
    (htok : resolveToken w = some token) (hfetch : w.fetchAvailable = true)
    (hmerge : mergePhase (networkListsBaseUrl ++ "/" ++ toString nid) token ni ra w =
      (.ok fi, reqs))
    (hok : (w.responses reqs.length).isOk = true)
    (hbody : (w.responses reqs.length).jsonBody = some body)
    (hparse : parseStateEnvelope body = .error d) :
    (updateNetworkListExecute nid ni ra w).outcome =
      .ok (textReply (schemaMismatchPrefixText ++ diagText d)) := by
  unfold updateNetworkListExecute
  rw [htok]
  simp only [hfetch, if_true, hmerge]
  unfold patchPhase
  simp only [hok, if_true, hbody, Option.getD_some, hparse]

/-- Claim C1: for every update_network_list call with replaceAll falsy
where the preliminary GET succeeds (2xx) and its body has `data.items`
(an array of strings, the NetworkList item type), the PATCH request body's
`items` equals the deduplicated union of the existing items followed by the
new items, keeping the first occurrence of each string in
existing-items-then-new order (`dedupKeepFirst`). -/
theorem c1_update_merge_dedup_union (w : World) (nid : Int) (newItems existing : List String)
    (ra : Option Bool) (token : String) (body dv : Json)
    (htok : resolveToken w = some token) (hfetch : w.fetchAvailable = true)
    (hra : ra.getD false = false)
    (hok : (w.responses 0).isOk = true) (hbody : (w.responses 0).jsonBody = some body)
    (hdv : jsGet body "data" = .ok (some dv))
    (hitems : jsGet dv "items" = .ok (some (.arr (existing.map Json.str)))) :
    ∃ g p, (runTool (.updateNetworkList nid newItems ra) w).requests = [g, p] ∧
      p.method = "PATCH" ∧
      p.body = some (.obj [("items",
        .arr ((dedupKeepFirst (existing ++ newItems)).map Json.str))]) := by
  have hdvT : jsTruthy dv = true := jsTruthy_of_jsGet_some hitems
  have hrun := updateExecute_merge_spread w nid newItems ra token body dv
    (.arr (existing.map Json.str)) (existing.map Json.str)
    htok hfetch hra hok hbody hdv hdvT hitems rfl rfl
  rw [hrun, patchPhase_requests]
  refine ⟨_, _, rfl, rfl, ?_⟩
  rw [← List.map_append, jsSetDedup_map_str]

/-- Witness for C1: existing items [A, B], newItems [B, C] give PATCH items
exactly [A, B, C]. -/
theorem c1_update_merge_dedup_union_witness :
    ∃ g p, (runTool (.updateNetworkList 48334 ["B", "C"] none) wMergeAB).requests = [g, p] ∧
      p.method = "PATCH" ∧
      p.body = some (.obj [("items", .arr [Json.str "A", Json.str "B", Json.str "C"])]) := by
  obtain ⟨g, p, h1, h2, h3⟩ := c1_update_merge_dedup_union wMergeAB 48334 ["B", "C"] ["A", "B"]
    none "tok" bodyMergeAB (.obj [("items", .arr [.str "A", .str "B"])])
    rfl rfl rfl rfl rfl rfl rfl
  exact ⟨g, p, h1, h2, h3.trans rfl⟩

/-- Counterexample to claim C2: the fallback case does not deduplicate:
with the preliminary GET failing and newItems = ["x", "x"], the PATCH body's
items is ["x", "x"], which has duplicate entries. -/
theorem c2_counterexample :
    (runTool (.updateNetworkList 48334 ["x", "x"] none) wGetFail).requests.map Request.body =
      [none, some (.obj [("items", .arr [Json.str "x", Json.str "x"])])] ∧
    ¬ ([Json.str "x", Json.str "x"] : List Json).Nodup := by
  refine ⟨rfl, ?_⟩
  intro hnd
  exact (List.nodup_cons.mp hnd).1 (List.mem_singleton.mpr rfl)

/-- Claim C2 as amended: in the merge path, when the preliminary GET
succeeds and its body carries `data.items` as an array of strings, the
PATCH body's items contains no duplicates; in the fallback case (GET
non-2xx) the PATCH body's items is `newItems` verbatim (duplicates
preserved). -/
theorem c2_merge_items_nodup :
    (∀ (w : World) (nid : Int) (newItems existing : List String) (ra : Option Bool)
      (token : String) (body dv : Json),
      resolveToken w = some token → w.fetchAvailable = true → ra.getD false = false →
      (w.responses 0).isOk = true → (w.responses 0).jsonBody = some body →
      jsGet body "data" = .ok (some dv) →
      jsGet dv "items" = .ok (some (.arr (existing.map Json.str))) →
      ∃ (g p : Request) (fi : List String), (runTool (.updateNetworkList nid newItems ra) w).requests = [g, p] ∧
        p.body = some (.obj [("items", .arr (fi.map Json.str))]) ∧ fi.Nodup) ∧
    (∀ (w : World) (nid : Int) (newItems : List String) (ra : Option Bool) (token : String),
      resolveToken w = some token → w.fetchAvailable = true → ra.getD false = false →
      (w.responses 0).isOk = false →
      ∃ g p, (runTool (.updateNetworkList nid newItems ra) w).requests = [g, p] ∧
        p.body = some (.obj [("items", .arr (newItems.map Json.str))])) := by
  constructor
  · intro w nid newItems existing ra token body dv htok hfetch hra hok hbody hdv hitems
    have hdvT : jsTruthy dv = true := jsTruthy_of_jsGet_some hitems
    have hrun := updateExecute_merge_spread w nid newItems ra token body dv
      (.arr (existing.map Json.str)) (existing.map Json.str)
      htok hfetch hra hok hbody hdv hdvT hitems rfl rfl
    rw [hrun, patchPhase_requests]
    refine ⟨_, _, dedupKeepFirst (existing ++ newItems), rfl, ?_, dedupKeepFirst_nodup _⟩
    rw [← List.map_append, jsSetDedup_map_str]
  · intro w nid newItems ra token htok hfetch hra hok
    have hrun := updateExecute_getFail w nid newItems ra token htok hfetch hra hok
    rw [hrun, patchPhase_requests]
    exact ⟨_, _, rfl, rfl⟩

/-- Witness for the amended C2: both conjuncts at concrete worlds. -/
theorem c2_merge_items_nodup_witness :
    (∃ (g p : Request) (fi : List String), (runTool (.updateNetworkList 48334 ["B", "C"] none) wMergeAB).requests = [g, p] ∧
      p.body = some (.obj [("items", .arr (fi.map Json.str))]) ∧ fi.Nodup) ∧
    (∃ g p, (runTool (.updateNetworkList 48334 ["x", "x"] none) wGetFail).requests = [g, p] ∧
      p.body = some (.obj [("items", .arr (["x", "x"].map Json.str))])) :=
  ⟨c2_merge_items_nodup.1 wMergeAB 48334 ["B", "C"] ["A", "B"] none "tok" bodyMergeAB
      (.obj [("items", .arr [.str "A", .str "B"])]) rfl rfl rfl rfl rfl rfl rfl,
    c2_merge_items_nodup.2 wGetFail 48334 ["x", "x"] none "tok" rfl rfl rfl rfl⟩

/-- Counterexample to claim C3: the preliminary GET of update_network_list
reads `data.items` without validating the body against the declared
single-entity shape.  The body `{data: {items: ["a"]}}` fails the declared
envelope validation (missing required fields), yet its items value flows
into the PATCH body, which becomes ["a", "x"] instead of the fallback
["x"]. -/
theorem c3_counterexample :
    parseGetByIdEnvelope bodyUnvalidated = .error Diag.missingField ∧
    (runTool (.updateNetworkList 48334 ["x"] none) wUnvalidated).requests.map Request.body =
      [none, some (.obj [("items", .arr [Json.str "a", Json.str "x"])])] ∧
    ([Json.str "a", Json.str "x"] : List Json) ≠ [Json.str "x"] := by
  refine ⟨rfl, rfl, ?_⟩
  intro h
  exact absurd (congrArg List.length h) (by decide)

/-- Claim C3 as amended: the final upstream responses the tools render are
schema-validated before any field is read (see the schema-mismatch
theorems), but update_network_list's preliminary GET body is read under
truthiness guards only: for every preliminary body with truthy `data` and
`data.items`, whether or not it passes any declared schema, the raw items
value is spread and Set-merged with the new items into the PATCH body. -/
theorem c3_prelim_get_unvalidated (w : World) (nid : Int) (newItems : List String)
    (ra : Option Bool) (token : String) (body dv iv : Json) (ex : List Json)
    (htok : resolveToken w = some token) (hfetch : w.fetchAvailable = true)
    (hra : ra.getD false = false)
    (hok : (w.responses 0).isOk = true) (hbody : (w.responses 0).jsonBody = some body)
    (hdv : jsGet body "data" = .ok (some dv)) (hdvT : jsTruthy dv = true)
    (hiv : jsGet dv "items" = .ok (some iv)) (hivT : jsTruthy iv = true)
    (hspread : jsSpread iv = .ok ex) :
    (runTool (.updateNetworkList nid newItems ra) w).requests.map Request.body =
      [none, some (.obj [("items", .arr (jsSetDedup (ex ++ newItems.map Json.str)))])] := by
  rw [updateExecute_merge_spread w nid newItems ra token body dv iv ex
    htok hfetch hra hok hbody hdv hdvT hiv hivT hspread, patchPhase_requests]
  rfl

/-- Witness for the amended C3 at the unvalidated body `{data:{items:["a"]}}`. -/
theorem c3_prelim_get_unvalidated_witness :
    (runTool (.updateNetworkList 48334 ["x"] none) wUnvalidated).requests.map Request.body =
      [none, some (.obj [("items",
        .arr (jsSetDedup ([Json.str "a"] ++ (["x"].map Json.str))))])] :=
  c3_prelim_get_unvalidated wUnvalidated 48334 ["x"] none "tok" bodyUnvalidated
    (.obj [("items", .arr [.str "a"])]) (.arr [.str "a"]) [.str "a"]
    rfl rfl rfl rfl rfl rfl rfl rfl rfl rfl

/-- Claim C4: with replaceAll=true the tool issues exactly one request, a
PATCH whose body's items is the supplied newItems verbatim (same order,
duplicates preserved); no preliminary GET is issued. -/
theorem c4_replace_all_verbatim (w : World) (nid : Int) (newItems : List String) (token : String)
    (htok : resolveToken w = some token) (hfetch : w.fetchAvailable = true) :
    (runTool (.updateNetworkList nid newItems (some true)) w).requests =
      [⟨networkListsBaseUrl ++ "/" ++ toString nid, "PATCH",
        [("Accept", "application/json"), ("Content-Type", "application/json"),
          ("Authorization", "Token " ++ token)],
        some (.obj [("items", .arr (newItems.map Json.str))])⟩] := by
  simp only [runTool]
  unfold updateNetworkListExecute
  rw [htok]
  simp only [hfetch, if_true]
  show (patchPhase (networkListsBaseUrl ++ "/" ++ toString nid) token
    (newItems.map Json.str) [] w).requests = _
  rw [patchPhase_requests]
  rfl

/-- Witness for C4: duplicates and order in newItems are preserved
verbatim, and the request trace is the single PATCH. -/
theorem c4_replace_all_verbatim_witness :
    (runTool (.updateNetworkList 7 ["b", "a", "b"] (some true)) wAny).requests =
      [⟨networkListsBaseUrl ++ "/" ++ toString (7 : Int), "PATCH",
        [("Accept", "application/json"), ("Content-Type", "application/json"),
          ("Authorization", "Token " ++ "tok")],
        some (.obj [("items", .arr [Json.str "b", Json.str "a", Json.str "b"])])⟩] :=
  c4_replace_all_verbatim wAny 7 ["b", "a", "b"] "tok" rfl rfl

/-- Claim C5: for every registered tool and every argument object, when
neither AZION_API_TOKEN nor AZION_TOKEN yields a token, execute returns the
fixed missing-token text reply (which contains the literal
"Missing AZION_API_TOKEN") and issues zero fetch calls. -/
theorem c5_missing_token_no_network (c : ToolCall) (w : World)
    (htok : resolveToken w = none) :
    (runTool c w).requests = [] ∧
    (runTool c w).outcome = .ok (textReply missingTokenText) ∧
    strContains missingTokenText "Missing AZION_API_TOKEN" := by
  have h : runTool c w = ⟨.ok (textReply missingTokenText), []⟩ := by
    cases c <;>
      · simp only [runTool, listHttpEventsExecute, listNetworkListExecute,
          createNetworkListExecute, getNetworkListExecute, updateNetworkListExecute]
        rw [htok]
  rw [h]
  exact ⟨rfl, rfl, by decide⟩

/-- Witness for C5 at a world with both credential variables unset. -/
theorem c5_missing_token_no_network_witness :
    (runTool .listNetworkLists wNoTokens).requests = [] ∧
    (runTool .listNetworkLists wNoTokens).outcome = .ok (textReply missingTokenText) ∧
    strContains missingTokenText "Missing AZION_API_TOKEN" :=
  c5_missing_token_no_network .listNetworkLists wNoTokens rfl

/-- A string that occurs between two others is a substring of the whole. -/
theorem strContains_mid (a b c sub : String) : strContains (a ++ (b ++ sub ++ c)) sub :=
  ⟨(a ++ b).data, c.data, by simp [String.data_append, List.append_assoc]⟩

theorem contains_iff_mem (l : List String) (a : String) : l.contains a = true ↔ a ∈ l := by
  constructor
  · intro h
    exact List.elem_iff.mp h
  · intro h
    exact List.elem_eq_true_of_mem h

set_option maxRecDepth 4000 in
/-- Counterexample to claim C6: checkIp supplied as the empty string.  The
guard `if (args.checkIp)` treats "" as falsy, so the reply contains neither
an "is already present" nor an "is NOT present" line, although the claim
(quantifying over every supplied checkIp) requires an "is NOT present" line
here ("" is not an element of the items). -/
theorem c6_counterexample :
    parseGetByIdEnvelope bodyGetById =
      .ok ⟨48334, "mylist", "ip_cidr", ["10.0.0.0/8"], "ed", "lm", true⟩ ∧
    (["10.0.0.0/8"] : List String).contains "" = false ∧
    ¬ strContains (firstText (runTool (.getNetworkList 48334 (some "")) wGetById))
      "is NOT present" ∧
    ¬ strContains (firstText (runTool (.getNetworkList 48334 (some "")) wGetById))
      "is already present" := by
  refine ⟨rfl, rfl, ?_, ?_⟩ <;> decide

/-- Claim C6 as amended: for every get_network_list call with a NON-EMPTY
checkIp and a validated GET-by-id response, the reply ends with an
"is already present" line when checkIp is byte-for-byte equal to some
element of data.items and with an "is NOT present" line otherwise; the
membership test is exact string equality (no CIDR containment). -/
theorem c6_exact_match_check (w : World) (nid : Int) (ip : String) (token : String)
    (body : Json) (nl : NetworkListData)
    (htok : resolveToken w = some token) (hfetch : w.fetchAvailable = true)
    (hok : (w.responses 0).isOk = true) (hbody : (w.responses 0).jsonBody = some body)
    (hparse : parseGetByIdEnvelope body = .ok nl) (hip : ip ≠ "") :
    (runTool (.getNetworkList nid (some ip)) w).outcome = .ok (textReply
      ("Network List Details (ID: " ++ toString nl.id ++ "):\n\n" ++
        stringifyPretty nl.toJson ++
        ("\n\nIP Check: " ++ ip ++ " " ++
          (if nl.items.contains ip then "is already present" else "is NOT present") ++
          " in the network list."))) ∧
    (nl.items.contains ip = true ↔ ip ∈ nl.items) ∧
    (ip ∈ nl.items →
      strContains (firstText (runTool (.getNetworkList nid (some ip)) w)) "is already present") ∧
    (ip ∉ nl.items →
      strContains (firstText (runTool (.getNetworkList nid (some ip)) w)) "is NOT present") := by
  have h : runTool (.getNetworkList nid (some ip)) w =
      ⟨.ok (textReply
        ("Network List Details (ID: " ++ toString nl.id ++ "):\n\n" ++
          stringifyPretty nl.toJson ++
          ("\n\nIP Check: " ++ ip ++ " " ++
            (if nl.items.contains ip then "is already present" else "is NOT present") ++
            " in the network list."))),
        [⟨networkListsBaseUrl ++ "/" ++ toString nid, "GET",
          [("Accept", "application/json"), ("Authorization", "Token " ++ token)], none⟩]⟩ := by
    simp only [runTool]
    unfold getNetworkListExecute
    rw [htok]
    simp only [hfetch, if_true, hok, hbody, Option.getD_some, hparse]
    rw [if_pos hip]
  refine ⟨?_, contains_iff_mem nl.items ip, ?_, ?_⟩
  · rw [h]
  · intro hmem
    have hc : nl.items.contains ip = true := (contains_iff_mem nl.items ip).mpr hmem
    rw [h]
    show strContains
      ("Network List Details (ID: " ++ toString nl.id ++ "):\n\n" ++
        stringifyPretty nl.toJson ++
        ("\n\nIP Check: " ++ ip ++ " " ++
          (if nl.items.contains ip then "is already present" else "is NOT present") ++
          " in the network list.")) "is already present"
    rw [if_pos hc]
    exact strContains_mid _ _ _ _
  · intro hnmem
    have hc : ¬ nl.items.contains ip = true := fun hcc =>
      hnmem ((contains_iff_mem nl.items ip).mp hcc)
    rw [h]
    show strContains
      ("Network List Details (ID: " ++ toString nl.id ++ "):\n\n" ++
        stringifyPretty nl.toJson ++
        ("\n\nIP Check: " ++ ip ++ " " ++
          (if nl.items.contains ip then "is already present" else "is NOT present") ++
          " in the network list.")) "is NOT present"
    rw [if_neg hc]
    exact strContains_mid _ _ _ _

/-- Witness for the amended C6, at the claim's own example: checking
"10.0.0.5" against items ["10.0.0.0/8"] reports NOT present (no CIDR
containment). -/
theorem c6_exact_match_check_witness :
    strContains (firstText (runTool (.getNetworkList 48334 (some "10.0.0.5")) wGetById))
      "is NOT present" := by
  have h := c6_exact_match_check wGetById 48334 "10.0.0.5" "tok" bodyGetById
    ⟨48334, "mylist", "ip_cidr", ["10.0.0.0/8"], "ed", "lm", true⟩
    rfl rfl rfl rfl rfl (by decide)
  exact h.2.2.2 (by decide)

/-- Claim C7: for every tool, a 2xx upstream response whose JSON body fails
the tool's declared envelope schema yields a reply equal to the fixed
literal "Unexpected response format from Azion API: " followed by the
validator's diagnostic; the diagnostic ranges over the fixed, payload-free
set `Diag`, and the reply never contains the rendering of any JSON object
(in particular never the malformed payload, e.g. a `results` field that is
a single object instead of a sequence).  For update_network_list the
schema-checked response is the PATCH response, reached after any completed
merge step. -/
theorem c7_schema_mismatch_reply :
    (∀ (w : World) (b e : Option String) (token : String) (body : Json) (d : Diag),
      resolveToken w = some token → w.fetchAvailable = true →
      (w.responses 0).isOk = true → (w.responses 0).jsonBody = some body →
      parseEventsEnvelope body = .error d →
      (runTool (.queryHttpEvents b e) w).outcome =
        .ok (textReply (schemaMismatchPrefixText ++ diagText d)) ∧
      strContains (schemaMismatchPrefixText ++ diagText d)
        "Unexpected response format from Azion API" ∧
      ∀ fs, ¬ strContains (schemaMismatchPrefixText ++ diagText d)
        (stringifyPretty (Json.obj fs))) ∧
    (∀ (w : World) (token : String) (body : Json) (d : Diag),
      resolveToken w = some token → w.fetchAvailable = true →
      (w.responses 0).isOk = true → (w.responses 0).jsonBody = some body →
      parseListEnvelope body = .error d →
      (runTool .listNetworkLists w).outcome =
        .ok (textReply (schemaMismatchPrefixText ++ diagText d)) ∧
      strContains (schemaMismatchPrefixText ++ diagText d)
        "Unexpected response format from Azion API" ∧
      ∀ fs, ¬ strContains (schemaMismatchPrefixText ++ diagText d)
        (stringifyPretty (Json.obj fs))) ∧
    (∀ (w : World) (nid : Int) (ip : Option String) (token : String) (body : Json) (d : Diag),
      resolveToken w = some token → w.fetchAvailable = true →
      (w.responses 0).isOk = true → (w.responses 0).jsonBody = some body →
      parseGetByIdEnvelope body = .error d →
      (runTool (.getNetworkList nid ip) w).outcome =
        .ok (textReply (schemaMismatchPrefixText ++ diagText d)) ∧
      strContains (schemaMismatchPrefixText ++ diagText d)
        "Unexpected response format from Azion API" ∧
      ∀ fs, ¬ strContains (schemaMismatchPrefixText ++ diagText d)
        (stringifyPretty (Json.obj fs))) ∧
    (∀ (w : World) (n ty : String) (items : List String) (act : Option Bool)
      (token : String) (body : Json) (d : Diag),
      resolveToken w = some token → w.fetchAvailable = true →
      (w.responses 0).isOk = true → (w.responses 0).jsonBody = some body →
      parseStateEnvelope body = .error d →
      (runTool (.createNetworkList n ty items act) w).outcome =
        .ok (textReply (schemaMismatchPrefixText ++ diagText d)) ∧
      strContains (schemaMismatchPrefixText ++ diagText d)
        "Unexpected response format from Azion API" ∧
      ∀ fs, ¬ strContains (schemaMismatchPrefixText ++ diagText d)
        (stringifyPretty (Json.obj fs))) ∧
    (∀ (w : World) (nid : Int) (ni : List String) (ra : Option Bool) (token : String)
      (fi : List Json) (reqs : List Request) (body : Json) (d : Diag),
      resolveToken w = some token → w.fetchAvailable = true →
      mergePhase (networkListsBaseUrl ++ "/" ++ toString nid) token ni ra w = (.ok fi, reqs) →
      (w.responses reqs.length).isOk = true →
      (w.responses reqs.length).jsonBody = some body →
      parseStateEnvelope body = .error d →
      (runTool (.updateNetworkList nid ni ra) w).outcome =
        .ok (textReply (schemaMismatchPrefixText ++ diagText d)) ∧
      strContains (schemaMismatchPrefixText ++ diagText d)
        "Unexpected response format from Azion API" ∧
      ∀ fs, ¬ strContains (schemaMismatchPrefixText ++ diagText d)
        (stringifyPretty (Json.obj fs))) := by
  refine ⟨?_, ?_, ?_, ?_, ?_⟩
  · intro w b e token body d htok hfetch hok hbody hparse
    exact ⟨listHttpEventsExecute_mismatch w b e token body d htok hfetch hok hbody hparse,
      strContains_schema_prefix d, fun fs => schema_reply_no_obj d fs⟩
  · intro w token body d htok hfetch hok hbody hparse
    exact ⟨listNetworkListExecute_mismatch w token body d htok hfetch hok hbody hparse,
      strContains_schema_prefix d, fun fs => schema_reply_no_obj d fs⟩
  · intro w nid ip token body d htok hfetch hok hbody hparse
    exact ⟨getNetworkListExecute_mismatch w nid ip token body d htok hfetch hok hbody hparse,
      strContains_schema_prefix d, fun fs => schema_reply_no_obj d fs⟩
  · intro w n ty items act token body d htok hfetch hok hbody hparse
    exact ⟨createNetworkListExecute_mismatch w n ty items act token body d
      htok hfetch hok hbody hparse,
      strContains_schema_prefix d, fun fs => schema_reply_no_obj d fs⟩
  · intro w nid ni ra token fi reqs body d htok hfetch hmerge hok hbody hparse
    exact ⟨updateNetworkListExecute_mismatch w nid ni ra token fi reqs body d
      htok hfetch hmerge hok hbody hparse,
      strContains_schema_prefix d, fun fs => schema_reply_no_obj d fs⟩

/-- Witness for C7 at the claim's example: a 2xx list_network_lists
response whose `results` is a single object, not a sequence. -/
theorem c7_schema_mismatch_reply_witness :
    (runTool .listNetworkLists wResultsObj).outcome =
      .ok (textReply (schemaMismatchPrefixText ++ diagText Diag.expectedArray)) :=
  (c7_schema_mismatch_reply.2.1 wResultsObj "tok" bodyResultsObj Diag.expectedArray
    rfl rfl rfl rfl rfl).1

/-- Claim C8: a successful query_http_events reply begins with the header
"HTTP Events from <begin> to <end>" where begin and end are the literal
argument values as passed, or, when omitted, the ISO renderings of a single
clock reading and of that reading minus exactly 5 minutes
(5 * 60 * 1000 ms). -/
theorem c8_header_literal_range (w : World) (b e : Option String) (token : String)
    (body : Json) (events : List Json)
    (htok : resolveToken w = some token) (hfetch : w.fetchAvailable = true)
    (hok : (w.responses 0).isOk = true) (hbody : (w.responses 0).jsonBody = some body)
    (hparse : parseEventsEnvelope body = .ok events)
    (h5 : 5 * 60 * 1000 ≤ w.nowMs) :
    (runTool (.queryHttpEvents b e) w).outcome = .ok (textReply
      ("HTTP Events from " ++ b.getD (isoOfMs (w.nowMs - 5 * 60 * 1000)) ++ " to " ++
        e.getD (isoOfMs w.nowMs) ++ "\n\nRaw data:\n" ++ stringifyPretty (.arr events))) ∧
    w.nowMs - 5 * 60 * 1000 + 5 * 60 * 1000 = w.nowMs := by
  constructor
  · simp only [runTool]
    unfold listHttpEventsExecute
    rw [htok]
    simp only [hfetch, if_true, hok, hbody, Option.getD_some, hparse]
  · omega

/-- Witness for C8 with begin and end omitted and an empty event list. -/
theorem c8_header_literal_range_witness :
    (runTool (.queryHttpEvents none none) wEventsEmpty).outcome = .ok (textReply
      ("HTTP Events from " ++ (none : Option String).getD
          (isoOfMs (wEventsEmpty.nowMs - 5 * 60 * 1000)) ++ " to " ++
        (none : Option String).getD (isoOfMs wEventsEmpty.nowMs) ++ "\n\nRaw data:\n" ++
        stringifyPretty (.arr []))) ∧
    wEventsEmpty.nowMs - 5 * 60 * 1000 + 5 * 60 * 1000 = wEventsEmpty.nowMs :=
  c8_header_literal_range wEventsEmpty none none "tok" bodyEventsEmpty []
    rfl rfl rfl rfl rfl (by decide)

/-- Claim C9: create_network_list issues exactly one POST whose body's
items is the caller-supplied items verbatim (duplicates preserved) and
whose active equals the supplied value, defaulting to true when omitted. -/
theorem c9_create_verbatim (w : World) (n ty : String) (items : List String)
    (act : Option Bool) (token : String)
    (htok : resolveToken w = some token) (hfetch : w.fetchAvailable = true) :
    (runTool (.createNetworkList n ty items act) w).requests =
      [⟨networkListsBaseUrl, "POST",
        [("Accept", "application/json"), ("Content-Type", "application/json"),
          ("Authorization", "Token " ++ token)],
        some (.obj [("name", .str n), ("type", .str ty),
          ("items", .arr (items.map Json.str)), ("active", .bool (act.getD true))])⟩] := by
  simp only [runTool]
  unfold createNetworkListExecute
  rw [htok]
  simp only [hfetch, if_true]
  split <;> (try split) <;> rfl

/-- Witness for C9: duplicated items pass through verbatim and omitted
active defaults to true. -/
theorem c9_create_verbatim_witness :
    (runTool (.createNetworkList "blk" "ip_cidr" ["x", "x"] none) wAny).requests =
      [⟨networkListsBaseUrl, "POST",
        [("Accept", "application/json"), ("Content-Type", "application/json"),
          ("Authorization", "Token " ++ "tok")],
        some (.obj [("name", .str "blk"), ("type", .str "ip_cidr"),
          ("items", .arr [Json.str "x", Json.str "x"]), ("active", .bool true)])⟩] :=
  c9_create_verbatim wAny "blk" "ip_cidr" ["x", "x"] none "tok" rfl rfl

/-- Counterexample to claim C10: a non-2xx response whose JSON body is
`null` makes `json.message` throw a TypeError which propagates out of
execute; no ToolResponse is returned at all, contradicting the claim for
the enumerated "non-2xx status" outcome. -/
theorem c10_counterexample :
    (runTool .listNetworkLists wNullErrBody).outcome =
      .error "TypeError: Cannot read properties of null (reading message)" := rfl

/-- Claim C10 as amended: whenever an execute routine returns (rather than
throws), the returned ToolResponse's content is a sequence of exactly one
element of type "text" -- over all five tools, all arguments and all
worlds. -/
theorem c10_single_text_content (c : ToolCall) (w : World) (r : ToolResponse)
    (h : (runTool c w).outcome = .ok r) : ∃ t, r.content = [⟨"text", t⟩] := by
  have hr : ∃ t, r = textReply t := by
    cases c with
    | queryHttpEvents b e => exact listHttpEventsExecute_ok h
    | listNetworkLists => exact listNetworkListExecute_ok h
    | createNetworkList n t i a => exact createNetworkListExecute_ok h
    | getNetworkList i ip => exact getNetworkListExecute_ok h
    | updateNetworkList i ni ra => exact updateNetworkListExecute_ok h
  obtain ⟨t, rfl⟩ := hr
  exact ⟨t, rfl⟩

/-- Witness for the amended C10. -/
theorem c10_single_text_content_witness :
    ∃ t, (textReply missingTokenText).content = [⟨"text", t⟩] :=
  c10_single_text_content .listNetworkLists wNoTokens (textReply missingTokenText) rfl
